import Mathlib

/-!
Verification of the data-transformation pipeline of the US traffic-accidents
dashboard (src/streamlit_app.py) against its natural-language specification.

The pandas pipeline is shallowly embedded: a cleaned row of the dataframe is a
`Record`; the filter stage, the spatial sampler and the four aggregators are
Lean functions on `List Record` translated from the corresponding pandas
expressions.  Real-valued weather metrics are modelled as rationals; pandas
`.round()` (numpy round-half-to-even) is modelled by `roundHalfEven`.
-/

set_option linter.unusedVariables false
set_option linter.unusedSectionVars false
set_option maxRecDepth 65536

namespace Accidents

/-- One record of the cleaned base table produced by `load_data`
(src/streamlit_app.py lines 48-67): the nine kept columns plus the three
derived calendar columns Year, Month, YearMonth. -/
structure Record where
  state : String
  severity : Int
  weatherCondition : String
  visibility : ℚ
  temperature : ℚ
  windSpeed : ℚ
  lat : ℚ
  lng : ℚ
  year : Int
  month : Int
  yearMonth : String
deriving DecidableEq

/-- The boolean row predicate of the filter stage (lines 119-124):
state equality, severity membership, inclusive year range. -/
def filterPred (selState : String) (selSevs : List Int) (minYear maxYear : Int)
    (r : Record) : Bool :=
  r.state == selState && selSevs.contains r.severity &&
    decide (minYear ≤ r.year) && decide (r.year ≤ maxYear)

/-- The filter stage `df_filtered` (lines 119-124): the pandas boolean-mask
selection keeps exactly the rows satisfying the conjunction of the three
conditions, in their original order. -/
def filterData (df : List Record) (selState : String) (selSevs : List Int)
    (minYear maxYear : Int) : List Record :=
  df.filter (filterPred selState selSevs minYear maxYear)

/-- The shared shape of `value_counts().sort_index()` (line 160) and
`groupby(col).size()` (lines 175, 230): the distinct values occurring in
`xs`, in ascending order, each paired with its number of occurrences. -/
def groupCounts {α : Type} [DecidableEq α] [LinearOrder α] (xs : List α) :
    List (α × Nat) :=
  (xs.dedup.insertionSort (fun a b => a ≤ b)).map fun v => (v, xs.count v)

section GroupCounts

variable {α : Type} [DecidableEq α] [LinearOrder α]

theorem sum_map_ite_eq_one {ks : List α} {a : α} (hnd : ks.Nodup)
    (ha : a ∈ ks) : (ks.map fun v => if a = v then 1 else 0).sum = 1 := by
  induction ks with
  | nil => cases ha
  | cons k kt ih =>
    rw [List.nodup_cons] at hnd
    rcases List.mem_cons.1 ha with hk | hk
    · subst hk
      have hz : ((kt.map fun v => if a = v then 1 else 0)).sum = 0 := by
        apply List.sum_eq_zero
        intro x hx
        rcases List.mem_map.1 hx with ⟨v, hv, rfl⟩
        have : a ≠ v := fun h => hnd.1 (h ▸ hv)
        simp [this]
      simp [hz]
    · have hne : a ≠ k := fun h => hnd.1 (h ▸ hk)
      simp [hne, ih hnd.2 hk]

theorem sum_map_count_of_nodup {ks : List α} (hnd : ks.Nodup) :
    ∀ xs : List α, (∀ x ∈ xs, x ∈ ks) →
      (ks.map fun v => xs.count v).sum = xs.length := by
  intro xs
  induction xs with
  | nil => intro _; simp
  | cons a t ih =>
    intro h
    have h1 : ∀ x ∈ t, x ∈ ks := fun x hx => h x (List.mem_cons_of_mem _ hx)
    have hstep : (ks.map fun v => (a :: t).count v)
        = ks.map fun v => t.count v + if a = v then 1 else 0 := by
      apply List.map_congr_left
      intro v _
      rw [List.count_cons]
      simp [beq_iff_eq]
    rw [hstep, List.sum_map_add, ih h1,
      sum_map_ite_eq_one hnd (h a (List.mem_cons_self a t))]
    simp [Nat.add_comm]

/-- Membership in the grouped counts: a pair occurs iff its key occurs in the
input and its count is the key's multiplicity. -/
theorem mem_groupCounts {xs : List α} {v : α} {c : Nat} :
    (v, c) ∈ groupCounts xs ↔ v ∈ xs ∧ c = xs.count v := by
  unfold groupCounts
  rw [List.mem_map]
  constructor
  · rintro ⟨w, hw, heq⟩
    have h1 : w = v := congrArg Prod.fst heq
    have h2 : xs.count w = c := congrArg Prod.snd heq
    subst h1
    rw [List.mem_insertionSort, List.mem_dedup] at hw
    exact ⟨hw, h2.symm⟩
  · rintro ⟨hv, rfl⟩
    exact ⟨v, by rw [List.mem_insertionSort, List.mem_dedup]; exact hv, rfl⟩

theorem groupCounts_keys_nodup (xs : List α) :
    ((groupCounts xs).map Prod.fst).Nodup := by
  unfold groupCounts
  rw [List.map_map]
  have : (Prod.fst ∘ fun v => (v, xs.count v)) = id := rfl
  rw [this, List.map_id]
  exact ((List.perm_insertionSort _ _).nodup_iff).2 (List.nodup_dedup xs)

theorem groupCounts_keys_sorted (xs : List α) :
    ((groupCounts xs).map Prod.fst).Sorted (fun a b : α => a ≤ b) := by
  unfold groupCounts
  rw [List.map_map]
  have : (Prod.fst ∘ fun v => (v, xs.count v)) = id := rfl
  rw [this, List.map_id]
  exact List.sorted_insertionSort _ _

/-- The keys of the grouped counts are strictly increasing. -/
theorem groupCounts_pairwise_lt (xs : List α) :
    (groupCounts xs).Pairwise (fun p q : α × Nat => p.1 < q.1) := by
  have hs := groupCounts_keys_sorted xs
  have hn := groupCounts_keys_nodup xs
  rw [List.Sorted, List.pairwise_map] at hs
  rw [List.Nodup, List.pairwise_map] at hn
  exact (hs.and hn).imp fun h => lt_of_le_of_ne h.1 h.2

/-- The grouped counts sum to the length of the input list. -/
theorem groupCounts_sum (xs : List α) :
    ((groupCounts xs).map Prod.snd).sum = xs.length := by
  unfold groupCounts
  rw [List.map_map]
  have : (Prod.snd ∘ fun v => (v, xs.count v)) = fun v => xs.count v := rfl
  rw [this]
  have hperm : List.Perm (xs.dedup.insertionSort (fun a b : α => a ≤ b))
      xs.dedup := List.perm_insertionSort _ _
  rw [(hperm.map fun v => xs.count v).sum_eq]
  exact sum_map_count_of_nodup (List.nodup_dedup xs) xs
    (fun x hx => List.mem_dedup.2 hx)

theorem groupCounts_counts_pos {xs : List α} {p : α × Nat}
    (hp : p ∈ groupCounts xs) : 1 ≤ p.2 := by
  obtain ⟨v, c⟩ := p
  rcases mem_groupCounts.1 hp with ⟨hv, rfl⟩
  simpa using List.count_pos_iff.2 hv

end GroupCounts

/-- The weather metric chosen in the selectbox (lines 193-205), mapped to the
corresponding column of the table. -/
inductive Metric where
  | visibility
  | temperature
  | windSpeed
deriving DecidableEq

/-- Column access for the selected weather metric. -/
def metricVal : Metric → Record → ℚ
  | .visibility, r => r.visibility
  | .temperature, r => r.temperature
  | .windSpeed, r => r.windSpeed

/-- The metric-specific outlier filter producing `dff_clean`
(lines 210-220): wind speed keeps rows `< 100` mph, visibility keeps rows
`≤ 20` miles, temperature keeps everything (a plain copy). -/
def dffClean : Metric → List Record → List Record
  | .windSpeed, fd => fd.filter fun r => decide (r.windSpeed < 100)
  | .visibility, fd => fd.filter fun r => decide (r.visibility ≤ 20)
  | .temperature, fd => fd

/-- pandas `Series.round()` with no decimals: numpy rounding to the nearest
integer, ties to the even integer (banker's rounding), on the rational model
of the float column (line 227). -/
def roundHalfEven (q : ℚ) : ℤ :=
  if q - ⌊q⌋ < 1 / 2 then ⌊q⌋
  else if 1 / 2 < q - ⌊q⌋ then ⌊q⌋ + 1
  else if 2 ∣ ⌊q⌋ then ⌊q⌋ else ⌊q⌋ + 1

/-- The rounded metric column `Wind_Speed(mph)_Rounded` etc. (line 227). -/
def roundedMetric (m : Metric) (r : Record) : ℤ :=
  roundHalfEven (metricVal m r)

/-- `freq_data` (line 230): group the outlier-filtered rows by the rounded
metric value and count each group (pandas `groupby` sorts keys ascending). -/
def freqData (m : Metric) (fd : List Record) : List (ℤ × Nat) :=
  groupCounts ((dffClean m fd).map (roundedMetric m))

/-- `severity_counts` (line 160): `value_counts().sort_index()` on the
Severity column of the filtered table. -/
def severityCounts (fd : List Record) : List (Int × Nat) :=
  groupCounts (fd.map Record.severity)

/-- `monthly_counts` (lines 175-176): `groupby(YearMonth).size()` then a sort
by the YearMonth string key. -/
def monthlyCounts (fd : List Record) : List (String × Nat) :=
  groupCounts (fd.map Record.yearMonth)

end Accidents

namespace Accidents

/-- C1: the Filter Stage returns exactly the subsequence of records whose
region equals the selected region, whose severity is in the selected set and
whose year lies in the inclusive range, preserving relative order; it is pure
(identical inputs give identical outputs); and with the full severity set and
the full year range it keeps exactly the records of the selected region. -/
theorem filterData_correct (df : List Record) (selState : String)
    (selSevs : List Int) (minYear maxYear : Int) (hne : selSevs ≠ []) :
    (List.Sublist (filterData df selState selSevs minYear maxYear) df)
    ∧ (∀ r ∈ filterData df selState selSevs minYear maxYear,
        r.state = selState ∧ r.severity ∈ selSevs ∧
        minYear ≤ r.year ∧ r.year ≤ maxYear)
    ∧ (∀ r : Record, r.state = selState → r.severity ∈ selSevs →
        minYear ≤ r.year → r.year ≤ maxYear →
        (filterData df selState selSevs minYear maxYear).count r = df.count r)
    ∧ (filterData df selState selSevs minYear maxYear
        = filterData df selState selSevs minYear maxYear)
    ∧ ((∀ r ∈ df, r.severity ∈ selSevs) →
       (∀ r ∈ df, minYear ≤ r.year ∧ r.year ≤ maxYear) →
        (filterData df selState selSevs minYear maxYear).length
          = (df.filter (fun r => r.state == selState)).length) := by
  refine ⟨List.filter_sublist df, ?_, ?_, rfl, ?_⟩
  · intro r hr
    simp [filterData, List.mem_filter, filterPred] at hr
    exact ⟨hr.2.1.1.1, hr.2.1.1.2, hr.2.1.2, hr.2.2⟩
  · intro r h1 h2 h3 h4
    apply List.count_filter
    simp [filterPred, h1, h2, h3, h4]
  · intro hsev hyr
    unfold filterData
    congr 1
    apply List.filter_congr
    intro r hr
    have h2 := hsev r hr
    have h3 := (hyr r hr).1
    have h4 := (hyr r hr).2
    simp [filterPred, h2, h3, h4]

/-- A sample record used to instantiate universally quantified theorems. -/
def recA : Record :=
  { state := "CA", severity := 2, weatherCondition := "Clear"
    visibility := 10, temperature := 61, windSpeed := 5
    lat := 34, lng := -118, year := 2021, month := 4, yearMonth := "2021-04" }

/-- A second sample record, in another region and year. -/
def recB : Record :=
  { state := "TX", severity := 3, weatherCondition := "Rain"
    visibility := 4, temperature := 70, windSpeed := 12
    lat := 30, lng := -97, year := 2020, month := 11, yearMonth := "2020-11" }

/-- Witness for `filterData_correct`: its hypothesis holds and its conclusion
is realised at a concrete table and filter selection. -/
theorem filterData_correct_witness :
    (([2, 3] : List Int) ≠ [])
    ∧ ((List.Sublist (filterData [recA, recB] "CA" [2, 3] 2020 2021) [recA, recB])
      ∧ (∀ r ∈ filterData [recA, recB] "CA" [2, 3] 2020 2021,
          r.state = "CA" ∧ r.severity ∈ ([2, 3] : List Int) ∧
          2020 ≤ r.year ∧ r.year ≤ 2021)
      ∧ (∀ r : Record, r.state = "CA" → r.severity ∈ ([2, 3] : List Int) →
          2020 ≤ r.year → r.year ≤ 2021 →
          (filterData [recA, recB] "CA" [2, 3] 2020 2021).count r
            = ([recA, recB] : List Record).count r)
      ∧ (filterData [recA, recB] "CA" [2, 3] 2020 2021
          = filterData [recA, recB] "CA" [2, 3] 2020 2021)
      ∧ ((∀ r ∈ ([recA, recB] : List Record), r.severity ∈ ([2, 3] : List Int)) →
         (∀ r ∈ ([recA, recB] : List Record), 2020 ≤ r.year ∧ r.year ≤ 2021) →
          (filterData [recA, recB] "CA" [2, 3] 2020 2021).length
            = (([recA, recB] : List Record).filter
                (fun r => r.state == "CA")).length)) :=
  ⟨by decide, filterData_correct [recA, recB] "CA" [2, 3] 2020 2021 (by decide)⟩

/-- `roundHalfEven` rounds to a nearest integer: it never moves a value by
more than one half. -/
theorem roundHalfEven_nearest (q : ℚ) : |(roundHalfEven q : ℚ) - q| ≤ 1 / 2 := by
  have h0 : (⌊q⌋ : ℚ) ≤ q := Int.floor_le q
  have h1 : q < ⌊q⌋ + 1 := Int.lt_floor_add_one q
  unfold roundHalfEven
  split_ifs with ha hb hc <;> rw [abs_le] <;> constructor <;> push_cast <;>
    linarith

/-- A record with a given wind speed, used for the C2 scenario. -/
def windRec (w : ℚ) : Record :=
  { state := "CA", severity := 2, weatherCondition := "Windy"
    visibility := 10, temperature := 60, windSpeed := w
    lat := 34, lng := -118, year := 2021, month := 4, yearMonth := "2021-04" }

/-- C2: Mode A weather aggregation first applies the metric-specific outlier
filter (wind speed drops rows `≥ 100` mph, visibility drops rows `> 20` miles,
temperature drops nothing), keeping order and multiplicities of the surviving
rows, then rounds each remaining value to a nearest integer and outputs one
(roundedValue, frequencyCount) pair per rounded value; wind speeds
[10, 99, 150] retain [10, 99] and drop 150 before binning. -/
theorem modeA_weather_correct (fd : List Record) :
    (List.Sublist (dffClean Metric.windSpeed fd) fd
      ∧ (∀ r ∈ dffClean Metric.windSpeed fd, r.windSpeed < 100)
      ∧ (∀ r : Record, r.windSpeed < 100 →
          (dffClean Metric.windSpeed fd).count r = fd.count r))
    ∧ (List.Sublist (dffClean Metric.visibility fd) fd
      ∧ (∀ r ∈ dffClean Metric.visibility fd, r.visibility ≤ 20)
      ∧ (∀ r : Record, r.visibility ≤ 20 →
          (dffClean Metric.visibility fd).count r = fd.count r))
    ∧ dffClean Metric.temperature fd = fd
    ∧ (∀ (m : Metric) (v : ℤ) (c : Nat),
        (v, c) ∈ freqData m fd ↔
          v ∈ (dffClean m fd).map (roundedMetric m) ∧
          c = ((dffClean m fd).map (roundedMetric m)).count v)
    ∧ (∀ q : ℚ, |(roundHalfEven q : ℚ) - q| ≤ 1 / 2)
    ∧ dffClean Metric.windSpeed [windRec 10, windRec 99, windRec 150]
        = [windRec 10, windRec 99] := by
  refine ⟨⟨List.filter_sublist fd, ?_, ?_⟩, ⟨List.filter_sublist fd, ?_, ?_⟩,
    rfl, ?_, roundHalfEven_nearest, ?_⟩
  · intro r hr
    simpa using (List.mem_filter.1 hr).2
  · intro r h
    exact List.count_filter (by simpa using h)
  · intro r hr
    simpa using (List.mem_filter.1 hr).2
  · intro r h
    exact List.count_filter (by simpa using h)
  · intro m v c
    exact mem_groupCounts
  · norm_num [dffClean, windRec, List.filter]

/-- Witness for `modeA_weather_correct` at a concrete filtered set. -/
theorem modeA_weather_correct_witness :
    (List.Sublist (dffClean Metric.windSpeed [recA, recB]) [recA, recB]
      ∧ (∀ r ∈ dffClean Metric.windSpeed [recA, recB], r.windSpeed < 100)
      ∧ (∀ r : Record, r.windSpeed < 100 →
          (dffClean Metric.windSpeed [recA, recB]).count r
            = ([recA, recB] : List Record).count r))
    ∧ (List.Sublist (dffClean Metric.visibility [recA, recB]) [recA, recB]
      ∧ (∀ r ∈ dffClean Metric.visibility [recA, recB], r.visibility ≤ 20)
      ∧ (∀ r : Record, r.visibility ≤ 20 →
          (dffClean Metric.visibility [recA, recB]).count r
            = ([recA, recB] : List Record).count r))
    ∧ dffClean Metric.temperature [recA, recB] = [recA, recB]
    ∧ (∀ (m : Metric) (v : ℤ) (c : Nat),
        (v, c) ∈ freqData m [recA, recB] ↔
          v ∈ (dffClean m [recA, recB]).map (roundedMetric m) ∧
          c = ((dffClean m [recA, recB]).map (roundedMetric m)).count v)
    ∧ (∀ q : ℚ, |(roundHalfEven q : ℚ) - q| ≤ 1 / 2)
    ∧ dffClean Metric.windSpeed [windRec 10, windRec 99, windRec 150]
        = [windRec 10, windRec 99] :=
  modeA_weather_correct [recA, recB]

/-- C10: the Mode A frequency output has pairwise-distinct rounded-value keys
and its counts sum to the size of the outlier-filtered set, so it is a
partition count of the records surviving outlier filtering. -/
theorem freqData_partition (m : Metric) (fd : List Record) :
    (freqData m fd).Pairwise (fun p q : ℤ × Nat => p.1 ≠ q.1)
    ∧ ((freqData m fd).map Prod.snd).sum = (dffClean m fd).length := by
  constructor
  · exact (groupCounts_pairwise_lt _).imp fun h => ne_of_lt h
  · rw [freqData, groupCounts_sum, List.length_map]

/-- Witness for `freqData_partition` at a concrete metric and filtered set. -/
theorem freqData_partition_witness :
    (freqData Metric.windSpeed [recA, recB]).Pairwise
      (fun p q : ℤ × Nat => p.1 ≠ q.1)
    ∧ ((freqData Metric.windSpeed [recA, recB]).map Prod.snd).sum
        = (dffClean Metric.windSpeed [recA, recB]).length :=
  freqData_partition Metric.windSpeed [recA, recB]

/-- A record with a given severity, used for the C6 scenario. -/
def sevRec (s : Int) : Record :=
  { state := "CA", severity := s, weatherCondition := "Clear"
    visibility := 10, temperature := 60, windSpeed := 5
    lat := 34, lng := -118, year := 2021, month := 4, yearMonth := "2021-04" }

/-- C6: the Severity Aggregator maps each severity value that occurs to its
count, in ascending key order, omitting absent levels; every count is at
least 1 and the counts sum to the filtered set's size; severities
[1,1,2,3,3,3] give [(1,2), (2,1), (3,3)]. -/
theorem severityCounts_correct (fd : List Record) :
    (severityCounts fd).Pairwise (fun p q : Int × Nat => p.1 < q.1)
    ∧ (∀ p ∈ severityCounts fd, 1 ≤ p.2)
    ∧ ((severityCounts fd).map Prod.snd).sum = fd.length
    ∧ (∀ (v : Int) (c : Nat), (v, c) ∈ severityCounts fd ↔
        ((∃ r ∈ fd, r.severity = v) ∧ c = (fd.map Record.severity).count v))
    ∧ severityCounts
        [sevRec 1, sevRec 1, sevRec 2, sevRec 3, sevRec 3, sevRec 3]
        = [(1, 2), (2, 1), (3, 3)] := by
  refine ⟨groupCounts_pairwise_lt _, fun p hp => groupCounts_counts_pos hp,
    ?_, ?_, ?_⟩
  · rw [severityCounts, groupCounts_sum, List.length_map]
  · intro v c
    rw [severityCounts, mem_groupCounts, List.mem_map]
  · decide

/-- Witness for `severityCounts_correct` at a concrete filtered set. -/
theorem severityCounts_correct_witness :
    (severityCounts [recA, recB]).Pairwise (fun p q : Int × Nat => p.1 < q.1)
    ∧ (∀ p ∈ severityCounts [recA, recB], 1 ≤ p.2)
    ∧ ((severityCounts [recA, recB]).map Prod.snd).sum
        = ([recA, recB] : List Record).length
    ∧ (∀ (v : Int) (c : Nat), (v, c) ∈ severityCounts [recA, recB] ↔
        ((∃ r ∈ ([recA, recB] : List Record), r.severity = v) ∧
          c = (([recA, recB] : List Record).map Record.severity).count v))
    ∧ severityCounts
        [sevRec 1, sevRec 1, sevRec 2, sevRec 3, sevRec 3, sevRec 3]
        = [(1, 2), (2, 1), (3, 3)] :=
  severityCounts_correct [recA, recB]

/-- A record with a given year-month bucket, used for the C7 scenario. -/
def ymRec (ym : String) : Record :=
  { state := "CA", severity := 2, weatherCondition := "Clear"
    visibility := 10, temperature := 60, windSpeed := 5
    lat := 34, lng := -118, year := 2020, month := 1, yearMonth := ym }

/-- C7: the Monthly Trend Aggregator outputs (bucket, count) pairs sorted
ascending by the bucket string, one per observed bucket only, with strictly
increasing buckets and counts summing to the filtered set's size; buckets
["2020-01","2020-01","2020-03"] give [("2020-01",2), ("2020-03",1)]. -/
theorem monthlyCounts_correct (fd : List Record) :
    ((monthlyCounts fd).map Prod.fst).Sorted (fun a b : String => a ≤ b)
    ∧ (monthlyCounts fd).Pairwise (fun p q : String × Nat => p.1 < q.1)
    ∧ ((monthlyCounts fd).map Prod.snd).sum = fd.length
    ∧ (∀ (b : String) (c : Nat), (b, c) ∈ monthlyCounts fd ↔
        ((∃ r ∈ fd, r.yearMonth = b) ∧ c = (fd.map Record.yearMonth).count b))
    ∧ monthlyCounts [ymRec "2020-01", ymRec "2020-01", ymRec "2020-03"]
        = [("2020-01", 2), ("2020-03", 1)] := by
  refine ⟨groupCounts_keys_sorted _, groupCounts_pairwise_lt _, ?_, ?_, ?_⟩
  · rw [monthlyCounts, groupCounts_sum, List.length_map]
  · intro b c
    rw [monthlyCounts, mem_groupCounts, List.mem_map]
  · simp only [monthlyCounts, groupCounts, ymRec, List.map_cons, List.map_nil]
    norm_num [List.dedup, List.pwFilter, List.insertionSort,
      List.orderedInsert, List.count_cons]
    decide

/-- Witness for `monthlyCounts_correct` at a concrete filtered set. -/
theorem monthlyCounts_correct_witness :
    ((monthlyCounts [recA, recB]).map Prod.fst).Sorted
      (fun a b : String => a ≤ b)
    ∧ (monthlyCounts [recA, recB]).Pairwise
        (fun p q : String × Nat => p.1 < q.1)
    ∧ ((monthlyCounts [recA, recB]).map Prod.snd).sum
        = ([recA, recB] : List Record).length
    ∧ (∀ (b : String) (c : Nat), (b, c) ∈ monthlyCounts [recA, recB] ↔
        ((∃ r ∈ ([recA, recB] : List Record), r.yearMonth = b) ∧
          c = (([recA, recB] : List Record).map Record.yearMonth).count b))
    ∧ monthlyCounts [ymRec "2020-01", ymRec "2020-01", ymRec "2020-03"]
        = [("2020-01", 2), ("2020-03", 1)] :=
  monthlyCounts_correct [recA, recB]

/-- One step of a linear congruential generator, the deterministic
pseudo-random word stream of the sampling model. -/
def lcgNext (s : Nat) : Nat := (s * 1103515245 + 12345) % 2147483648

/-- Deterministic pseudo-random reordering of a list, drawing one element at
a time without replacement.  This models the seeded-without-replacement
contract of `DataFrame.sample(..., random_state=1)` (line 139), whose pandas
internals are an external collaborator: a pure function of the seed and the
input that picks pairwise-distinct positions. -/
def drawAll {α : Type} (seed : Nat) : List α → List α
  | [] => []
  | y :: ys =>
    have hi : lcgNext seed % (y :: ys).length < (y :: ys).length :=
      Nat.mod_lt _ (Nat.succ_pos _)
    (y :: ys)[lcgNext seed % (y :: ys).length] ::
      drawAll (lcgNext seed)
        ((y :: ys).eraseIdx (lcgNext seed % (y :: ys).length))
termination_by xs => xs.length
decreasing_by
  have h2 : lcgNext seed % (y :: ys).length < (y :: ys).length :=
    Nat.mod_lt _ (Nat.succ_pos _)
  have := List.length_eraseIdx_add_one h2
  omega

theorem cons_eraseIdx_perm {α : Type} [DecidableEq α] {l : List α} {i : Nat}
    (h : i < l.length) : List.Perm (getElem l i h :: l.eraseIdx i) l :=
  ((List.erase_getElem h).symm.cons _).trans
    (List.perm_cons_erase (List.getElem_mem h)).symm

theorem drawAll_perm {α : Type} [DecidableEq α] :
    ∀ (n seed : Nat) (xs : List α), xs.length = n →
      List.Perm (drawAll seed xs) xs := by
  intro n
  induction n using Nat.strong_induction_on with
  | _ n ih =>
    intro seed xs hlen
    cases xs with
    | nil => simp [drawAll]
    | cons y ys =>
      rw [drawAll]
      have h2 : lcgNext seed % (y :: ys).length < (y :: ys).length :=
        Nat.mod_lt _ (Nat.succ_pos _)
      have h3 := List.length_eraseIdx_add_one h2
      have hl : (y :: ys).length = ys.length + 1 := List.length_cons y ys
      have hrec : List.Perm
          (drawAll (lcgNext seed)
            ((y :: ys).eraseIdx (lcgNext seed % (y :: ys).length)))
          ((y :: ys).eraseIdx (lcgNext seed % (y :: ys).length)) :=
        ih (n - 1) (by omega) (lcgNext seed) _ (by omega)
      exact (hrec.cons _).trans (cons_eraseIdx_perm h2)

/-- `df_sample` (lines 137-142): when the filtered set holds more than 10,000
records, draw a seeded random sample of exactly 10,000 without replacement;
otherwise use the filtered set as is. -/
def dfSample (fd : List Record) : List Record :=
  if 10000 < fd.length then (drawAll 1 fd).take 10000 else fd

/-- C5: the Spatial Sampler returns at most 10,000 records, exactly 10,000
(drawn without replacement) whenever the filtered set is larger, is
deterministic for a fixed seed, and returns a filtered set of at most 10,000
records unchanged. -/
theorem dfSample_correct (fd : List Record) :
    (dfSample fd).length ≤ 10000
    ∧ (10000 < fd.length → (dfSample fd).length = 10000)
    ∧ List.Subperm (dfSample fd) fd
    ∧ (fd.length ≤ 10000 → dfSample fd = fd)
    ∧ dfSample fd = dfSample fd := by
  have hperm : List.Perm (drawAll 1 fd) fd := drawAll_perm fd.length 1 fd rfl
  unfold dfSample
  by_cases h : 10000 < fd.length
  · have hlen : ((drawAll 1 fd).take 10000).length = 10000 := by
      rw [List.length_take, hperm.length_eq]
      omega
    refine ⟨?_, fun _ => ?_, ?_, fun hle => absurd h (by omega), ?_⟩
    · simp only [if_pos h, hlen]
      omega
    · simp only [if_pos h, hlen]
    · simp only [if_pos h]
      exact ((List.take_sublist _ _).subperm).trans hperm.subperm
    · rfl
  · refine ⟨?_, fun hgt => absurd hgt h, ?_, fun _ => ?_, rfl⟩
    · simp only [if_neg h]
      omega
    · simp only [if_neg h]
      exact List.Subperm.refl fd
    · simp only [if_neg h]

/-- Witness for `dfSample_correct` at a concrete (small) filtered set. -/
theorem dfSample_correct_witness :
    (dfSample [recA, recB]).length ≤ 10000
    ∧ (10000 < ([recA, recB] : List Record).length →
        (dfSample [recA, recB]).length = 10000)
    ∧ List.Subperm (dfSample [recA, recB]) [recA, recB]
    ∧ (([recA, recB] : List Record).length ≤ 10000 →
        dfSample [recA, recB] = [recA, recB])
    ∧ dfSample [recA, recB] = dfSample [recA, recB] :=
  dfSample_correct [recA, recB]

/-- The weather panel outcome (lines 222-249): either the explicit
"no data for this metric after cleaning outliers" state or the frequency
chart data. -/
inductive WeatherView where
  | metricCleaningEmpty
  | freqChart (data : List (ℤ × Nat))
deriving DecidableEq

/-- The chart-ready datasets rendered when the filtered set is non-empty
(lines 129-249). -/
structure ChartsView where
  mapData : List Record
  severityChart : List (Int × Nat)
  trendChart : List (String × Nat)
  weather : WeatherView
deriving DecidableEq

/-- The overall display outcome (lines 127-249): the explicit
"No data found for the selected filters" state, or the four charts. -/
inductive RenderResult where
  | emptyResult
  | charts (c : ChartsView)
deriving DecidableEq

/-- The display dispatch of the script (lines 127-249): the empty-result
warning exactly when the filtered set is empty; otherwise all four chart
datasets are built, with the weather panel degrading to its own distinct
empty state when outlier cleaning removes every record. -/
def render (fd : List Record) (m : Metric) : RenderResult :=
  if fd.isEmpty then RenderResult.emptyResult
  else RenderResult.charts
    { mapData := dfSample fd
      severityChart := severityCounts fd
      trendChart := monthlyCounts fd
      weather :=
        if (dffClean m fd).isEmpty then WeatherView.metricCleaningEmpty
        else WeatherView.freqChart (freqData m fd) }

/-- C8: the EmptyResult state is reported iff the filtered set is empty (no
charts are rendered then), and a non-empty filtered set whose metric cleaning
removes every record yields the distinct MetricCleaningEmpty state while the
map, severity and trend aggregations still proceed. -/
theorem render_empty_states (fd : List Record) (m : Metric) :
    (render fd m = RenderResult.emptyResult ↔ fd = [])
    ∧ (fd ≠ [] → dffClean m fd = [] →
        render fd m = RenderResult.charts
          { mapData := dfSample fd
            severityChart := severityCounts fd
            trendChart := monthlyCounts fd
            weather := WeatherView.metricCleaningEmpty }
        ∧ render fd m ≠ RenderResult.emptyResult) := by
  constructor
  · unfold render
    split_ifs with h
    · simpa [List.isEmpty_iff] using h
    · simp only [List.isEmpty_iff] at h
      constructor
      · intro hc; cases hc
      · intro hc; exact absurd hc h
  · intro hne hclean
    unfold render
    rw [if_neg (by simpa [List.isEmpty_iff] using hne),
      if_pos (by simpa [List.isEmpty_iff] using hclean)]
    exact ⟨rfl, fun hc => by cases hc⟩

/-- Witness for `render_empty_states`: a one-record filtered set whose only
record has 150 mph wind realises the MetricCleaningEmpty state. -/
theorem render_empty_states_witness :
    (([windRec 150] : List Record) ≠ [])
    ∧ dffClean Metric.windSpeed [windRec 150] = []
    ∧ (render [windRec 150] Metric.windSpeed = RenderResult.charts
        { mapData := dfSample [windRec 150]
          severityChart := severityCounts [windRec 150]
          trendChart := monthlyCounts [windRec 150]
          weather := WeatherView.metricCleaningEmpty }
      ∧ render [windRec 150] Metric.windSpeed ≠ RenderResult.emptyResult) := by
  have hclean : dffClean Metric.windSpeed [windRec 150] = [] := by
    norm_num [dffClean, windRec, List.filter]
  exact ⟨by simp, hclean,
    (render_empty_states [windRec 150] Metric.windSpeed).2 (by simp) hclean⟩

/-- Modelled from the spec: the record type of one output row of the Weather
Aggregator's "Mode B — monthly correlation" view.  Mode B is absent from
src/streamlit_app.py (the weather panel implements only Mode A); the row
carries, per the spec, the bucket, the record count and the mean of each of
the three weather metrics. -/
structure ModeBRow where
  bucket : String
  count : Nat
  meanVisibility : ℚ
  meanTemperature : ℚ
  meanWindSpeed : ℚ
deriving DecidableEq

/-- The filtered records landing in a given year-month bucket. -/
def bucketRecords (fd : List Record) (b : String) : List Record :=
  fd.filter fun r => r.yearMonth == b

/-- Modelled from the spec: the Weather Aggregator's "Mode B — monthly
correlation" view, absent from src/streamlit_app.py.  Per year-month bucket
of the filtered set: the record count and the arithmetic mean (no rounding)
of visibility, temperature and wind speed over all filtered records landing
in that bucket; one output row per observed bucket. -/
def modeB (fd : List Record) : List ModeBRow :=
  ((fd.map Record.yearMonth).dedup.insertionSort (fun a b => a ≤ b)).map
    fun b =>
      { bucket := b
        count := (bucketRecords fd b).length
        meanVisibility := ((bucketRecords fd b).map Record.visibility).sum
          / (bucketRecords fd b).length
        meanTemperature := ((bucketRecords fd b).map Record.temperature).sum
          / (bucketRecords fd b).length
        meanWindSpeed := ((bucketRecords fd b).map Record.windSpeed).sum
          / (bucketRecords fd b).length }

/-- C3: the Mode B monthly-correlation view has exactly one row per observed
year-month bucket, carrying the bucket, the count of filtered records in the
bucket, and the exact arithmetic mean of each weather metric over those
records, with no rounding (the means are exact rational quotients). -/
theorem modeB_correct (fd : List Record) :
    (modeB fd).Pairwise (fun a b : ModeBRow => a.bucket ≠ b.bucket)
    ∧ (∀ b : String,
        (∃ r ∈ fd, r.yearMonth = b) ↔ ∃ row ∈ modeB fd, row.bucket = b)
    ∧ (∀ row ∈ modeB fd,
        row.count = (bucketRecords fd row.bucket).length
        ∧ 1 ≤ row.count
        ∧ row.meanVisibility
            = ((bucketRecords fd row.bucket).map Record.visibility).sum
              / row.count
        ∧ row.meanTemperature
            = ((bucketRecords fd row.bucket).map Record.temperature).sum
              / row.count
        ∧ row.meanWindSpeed
            = ((bucketRecords fd row.bucket).map Record.windSpeed).sum
              / row.count) := by
  refine ⟨?_, ?_, ?_⟩
  · rw [modeB, List.pairwise_map]
    have hs : ((fd.map Record.yearMonth).dedup.insertionSort
        (fun a b => a ≤ b)).Sorted (fun a b : String => a ≤ b) :=
      List.sorted_insertionSort _ _
    have hn : ((fd.map Record.yearMonth).dedup.insertionSort
        (fun a b => a ≤ b)).Nodup :=
      ((List.perm_insertionSort _ _).nodup_iff).2
        (List.nodup_dedup (fd.map Record.yearMonth))
    exact (List.Pairwise.and hs hn).imp fun h => h.2
  · intro b
    constructor
    · rintro ⟨r, hr, rfl⟩
      refine ⟨_, List.mem_map.2 ⟨r.yearMonth, ?_, rfl⟩, rfl⟩
      rw [List.mem_insertionSort, List.mem_dedup]
      exact List.mem_map.2 ⟨r, hr, rfl⟩
    · rintro ⟨row, hrow, rfl⟩
      rw [modeB] at hrow
      rcases List.mem_map.1 hrow with ⟨b, hb, rfl⟩
      rw [List.mem_insertionSort, List.mem_dedup] at hb
      rcases List.mem_map.1 hb with ⟨r, hr, rfl⟩
      exact ⟨r, hr, rfl⟩
  · intro row hrow
    rw [modeB] at hrow
    rcases List.mem_map.1 hrow with ⟨b, hb, rfl⟩
    rw [List.mem_insertionSort, List.mem_dedup] at hb
    rcases List.mem_map.1 hb with ⟨r, hr, hym⟩
    have hmem : r ∈ bucketRecords fd b := by
      rw [bucketRecords, List.mem_filter]
      exact ⟨hr, by simp [hym]⟩
    have hpos : 0 < (bucketRecords fd b).length :=
      List.length_pos.2 (List.ne_nil_of_mem hmem)
    exact ⟨rfl, hpos, rfl, rfl, rfl⟩

/-- Witness for `modeB_correct` at a concrete filtered set. -/
theorem modeB_correct_witness :
    (modeB [recA, recB]).Pairwise (fun a b : ModeBRow => a.bucket ≠ b.bucket)
    ∧ (∀ b : String, (∃ r ∈ ([recA, recB] : List Record), r.yearMonth = b) ↔
        ∃ row ∈ modeB [recA, recB], row.bucket = b)
    ∧ (∀ row ∈ modeB [recA, recB],
        row.count = (bucketRecords [recA, recB] row.bucket).length
        ∧ 1 ≤ row.count
        ∧ row.meanVisibility
            = ((bucketRecords [recA, recB] row.bucket).map
                Record.visibility).sum / row.count
        ∧ row.meanTemperature
            = ((bucketRecords [recA, recB] row.bucket).map
                Record.temperature).sum / row.count
        ∧ row.meanWindSpeed
            = ((bucketRecords [recA, recB] row.bucket).map
                Record.windSpeed).sum / row.count) :=
  modeB_correct [recA, recB]

/-- A cell value of the raw pandas dataframe: a number, a string, a parsed
timestamp (kept as its year and month, the only calendar fields the script
derives), or a missing value (NaN/NaT). -/
inductive Val where
  | num (q : ℚ)
  | str (s : String)
  | time (y m : Int)
  | null
deriving DecidableEq

/-- A dataframe row, as the association of column names to cell values. -/
def Rowv : Type := List (String × Val)

/-- The raw table handed to the cleaning code: its column set and its rows. -/
structure RawTable where
  cols : List String
  rows : List (List (String × Val))
deriving DecidableEq

/-- `columns_to_keep` (lines 49-53). -/
def columnsToKeep : List String :=
  ["State", "Severity", "Start_Time", "Weather_Condition",
   "Visibility(mi)", "Temperature(F)", "Wind_Speed(mph)",
   "Start_Lat", "Start_Lng"]

/-- `existing_columns` (line 56): the required columns actually present, in
`columns_to_keep` order. -/
def existingColumns (raw : RawTable) : List String :=
  columnsToKeep.filter fun c => raw.cols.contains c

/-- `df[existing_columns]` (line 57), per row: keep the existing columns, in
the selected order. -/
def restrictRow (cs : List String) (row : List (String × Val)) :
    List (String × Val) :=
  cs.filterMap fun c => (row.lookup c).map fun v => (c, v)

/-- Whether a row has a non-missing value in a column. -/
def hasValue (row : List (String × Val)) (c : String) : Bool :=
  match row.lookup c with
  | some v => v ≠ Val.null
  | none => false

/-- `df.dropna(subset=existing_columns)` (lines 60 and 64): keep the rows
with a non-missing value in every listed column. -/
def dropnaRows (cs : List String) (rows : List (List (String × Val))) :
    List (List (String × Val)) :=
  rows.filter fun row => cs.all fun c => hasValue row c

/-- `pd.to_datetime(..., errors="coerce")` (line 63) on a single cell: a
parsed timestamp stays, anything else coerces to missing (NaT). -/
def parseTime : Val → Val
  | Val.time y m => Val.time y m
  | _ => Val.null

/-- Column assignment `df[c] = ...` per row: replace the value in place when
the column exists, append the column otherwise; the assigned value is
computed from the row's previous state. -/
def setCol (c : String) (f : List (String × Val) → Val)
    (row : List (String × Val)) : List (String × Val) :=
  if row.any fun p => p.1 == c then
    row.map fun p => if p.1 == c then (c, f row) else p
  else row ++ [(c, f row)]

/-- The parsed Start_Time of a row, when present. -/
def getTime (row : List (String × Val)) : Option (Int × Int) :=
  match row.lookup "Start_Time" with
  | some (Val.time y m) => some (y, m)
  | _ => none

/-- `Start_Time.dt.to_period("M").astype(str)` (line 67): the "YYYY-MM"
bucket string. -/
def yearMonthStr (y m : Int) : String :=
  toString y ++ "-" ++ (if m < 10 then "0" ++ toString m else toString m)

/-- Lines 65-67: derive the Year, Month and YearMonth columns from the
parsed Start_Time. -/
def addDerived (row : List (String × Val)) : List (String × Val) :=
  match getTime row with
  | some (y, m) =>
      setCol "YearMonth" (fun _ => Val.str (yearMonthStr y m))
        (setCol "Month" (fun _ => Val.num m)
          (setCol "Year" (fun _ => Val.num y) row))
  | none => row

/-- The Cleaner/Normalizer (lines 48-67): select the required columns that
exist, drop rows missing a value in any of them, parse Start_Time (reading
the column raises a KeyError when it is absent, exactly as `df["Start_Time"]`
does at line 63), drop rows whose parse failed, and derive the calendar
columns. -/
def cleanData (raw : RawTable) : Except String (List (List (String × Val))) :=
  let existing := existingColumns raw
  let rows1 := raw.rows.map (restrictRow existing)
  let rows2 := dropnaRows existing rows1
  if "Start_Time" ∈ existing then
    let rows3 := rows2.map (setCol "Start_Time" fun row =>
      parseTime ((row.lookup "Start_Time").getD Val.null))
    let rows4 := rows3.filter fun row => hasValue row "Start_Time"
    Except.ok (rows4.map addDerived)
  else Except.error "KeyError: Start_Time"

theorem mem_restrictRow {cs : List String} {row : List (String × Val)}
    {p : String × Val} (hp : p ∈ restrictRow cs row) : p.1 ∈ cs := by
  rcases List.mem_filterMap.1 hp with ⟨c, hc, hm⟩
  rcases Option.map_eq_some'.1 hm with ⟨v, _, rfl⟩
  exact hc

theorem mem_setCol {c : String} {f : List (String × Val) → Val}
    {row : List (String × Val)} {p : String × Val}
    (hp : p ∈ setCol c f row) : p.1 = c ∨ p ∈ row := by
  unfold setCol at hp
  split_ifs at hp with h
  · rcases List.mem_map.1 hp with ⟨q, hq, rfl⟩
    by_cases hqc : q.1 = c
    · left
      simp [hqc]
    · rw [if_neg (by simpa using hqc)]
      exact Or.inr hq
  · rcases List.mem_append.1 hp with hq | hq
    · exact Or.inr hq
    · rcases List.mem_singleton.1 hq with rfl
      exact Or.inl rfl

theorem mem_addDerived {row : List (String × Val)} {p : String × Val}
    (hp : p ∈ addDerived row) :
    p.1 ∈ (["Year", "Month", "YearMonth"] : List String) ∨ p ∈ row := by
  unfold addDerived at hp
  split at hp
  · rcases mem_setCol hp with h | hp2
    · exact Or.inl (by simp [h])
    rcases mem_setCol hp2 with h | hp3
    · exact Or.inl (by simp [h])
    rcases mem_setCol hp3 with h | hp4
    · exact Or.inl (by simp [h])
    · exact Or.inr hp4
  · exact Or.inr hp

/-- C4 counterexample: a raw table lacking every required column does not
yield an empty usable set; the cleaner fails with a KeyError, because line 63
reads the absent Start_Time column unconditionally. -/
theorem cleanData_all_missing_fails :
    cleanData { cols := ["Foo"], rows := [[("Foo", Val.num 1)]] }
      = Except.error "KeyError: Start_Time" := by
  rfl

/-- C4 (amended): when the Start_Time column is present the cleaner succeeds
using only the columns present (every output cell sits in an existing
required column or a derived calendar column); when Start_Time is absent —
in particular when every required column is absent — the cleaner raises a
KeyError instead of returning an empty usable set. -/
theorem cleanData_missing_columns (raw : RawTable) :
    ("Start_Time" ∈ raw.cols →
      ∃ rows, cleanData raw = Except.ok rows ∧
        ∀ row ∈ rows, ∀ p ∈ row,
          p.1 ∈ existingColumns raw ∨
            p.1 ∈ (["Year", "Month", "YearMonth"] : List String))
    ∧ ("Start_Time" ∉ raw.cols →
        cleanData raw = Except.error "KeyError: Start_Time") := by
  have hiff : "Start_Time" ∈ existingColumns raw ↔ "Start_Time" ∈ raw.cols := by
    rw [existingColumns, List.mem_filter]
    constructor
    · intro h
      simpa using h.2
    · intro h
      exact ⟨by simp [columnsToKeep], by simpa using h⟩
  constructor
  · intro hST
    rw [cleanData, if_pos (hiff.2 hST)]
    refine ⟨_, rfl, ?_⟩
    intro row hrow p hp
    rcases List.mem_map.1 hrow with ⟨row4, hrow4, rfl⟩
    rcases mem_addDerived hp with h | hp4
    · exact Or.inr h
    have hrow3 := List.mem_of_mem_filter hrow4
    rcases List.mem_map.1 hrow3 with ⟨row2, hrow2, rfl⟩
    rcases mem_setCol hp4 with h | hp2
    · exact Or.inl (h ▸ hiff.2 hST)
    have hrow1 := List.mem_of_mem_filter hrow2
    rcases List.mem_map.1 hrow1 with ⟨row0, hrow0, rfl⟩
    exact Or.inl (mem_restrictRow hp2)
  · intro hST
    rw [cleanData, if_neg (fun h => hST (hiff.1 h))]

/-- A full raw row with every required column present and valid. -/
def exRawRow : List (String × Val) :=
  [("State", Val.str "CA"), ("Severity", Val.num 2),
   ("Start_Time", Val.time 2021 4), ("Weather_Condition", Val.str "Clear"),
   ("Visibility(mi)", Val.num 10), ("Temperature(F)", Val.num 61),
   ("Wind_Speed(mph)", Val.num 5), ("Start_Lat", Val.num 34),
   ("Start_Lng", Val.num (-118))]

/-- A raw table exposing all required columns. -/
def exRaw : RawTable := { cols := columnsToKeep, rows := [exRawRow] }

/-- Witness for `cleanData_missing_columns`: both hypotheses are realised,
one by `exRaw` (Start_Time present) and one by a table without columns. -/
theorem cleanData_missing_columns_witness :
    ("Start_Time" ∈ exRaw.cols
      ∧ (∃ rows, cleanData exRaw = Except.ok rows ∧
          ∀ row ∈ rows, ∀ p ∈ row,
            p.1 ∈ existingColumns exRaw ∨
              p.1 ∈ (["Year", "Month", "YearMonth"] : List String)))
    ∧ ("Start_Time" ∉ (RawTable.mk [] []).cols
      ∧ cleanData (RawTable.mk [] [])
          = Except.error "KeyError: Start_Time") :=
  ⟨⟨by decide, (cleanData_missing_columns exRaw).1 (by decide)⟩,
   ⟨by decide, (cleanData_missing_columns (RawTable.mk [] [])).2 (by decide)⟩⟩

/-- Numeric cell of a row, when present. -/
def getNum (row : List (String × Val)) (c : String) : Option ℚ :=
  match row.lookup c with
  | some (Val.num q) => some q
  | _ => none

/-- String cell of a row, when present. -/
def getStr (row : List (String × Val)) (c : String) : Option String :=
  match row.lookup c with
  | some (Val.str s) => some s
  | _ => none

/-- The filter stage (lines 119-124) at the dataframe-row level: state
equality, severity membership and inclusive year range read from the row's
columns. -/
def frameFilter (df : List (List (String × Val))) (selState : String)
    (selSevs : List ℚ) (minYear maxYear : ℚ) :
    List (List (String × Val)) :=
  df.filter fun row =>
    (match getStr row "State" with
      | some s => s == selState
      | none => false)
    && (match getNum row "Severity" with
      | some v => selSevs.contains v
      | none => false)
    && (match getNum row "Year" with
      | some v => decide (minYear ≤ v)
      | none => false)
    && (match getNum row "Year" with
      | some v => decide (v ≤ maxYear)
      | none => false)

/-- The dataframe column holding the selected metric (lines 200-205). -/
def metricColName : Metric → String
  | Metric.visibility => "Visibility(mi)"
  | Metric.temperature => "Temperature(F)"
  | Metric.windSpeed => "Wind_Speed(mph)"

/-- The metric-specific outlier filter (lines 210-219) at the dataframe-row
level. -/
def frameOutlier (m : Metric) (df : List (List (String × Val))) :
    List (List (String × Val)) :=
  match m with
  | Metric.windSpeed => df.filter fun row =>
      match getNum row "Wind_Speed(mph)" with
      | some v => decide (v < 100)
      | none => false
  | Metric.visibility => df.filter fun row =>
      match getNum row "Visibility(mi)" with
      | some v => decide (v ≤ 20)
      | none => false
  | Metric.temperature => df

/-- `binned_col` (line 226): the helper column name added during weather
binning. -/
def binnedName (m : Metric) : String := metricColName m ++ "_Rounded"

/-- Line 227: the in-place column assignment
`dff_clean[binned_col] = dff_clean[col].round()`. -/
def addBinned (m : Metric) (df : List (List (String × Val))) :
    List (List (String × Val)) :=
  df.map (setCol (binnedName m) fun row =>
    match getNum row (metricColName m) with
    | some q => Val.num (roundHalfEven q)
    | none => Val.null)

/-- The post-cleaning object store of one script run.  `df_filtered`
(line 124) and `dff_clean` (lines 212, 216, 219) are built with `.copy()`,
so the base table, the filtered view and the weather table live in three
distinct cells; the script's only post-cleaning in-place mutation, the
column assignment at line 227, is the `List.set` update of cell 2. -/
def pipelineStore (df : List (List (String × Val))) (selState : String)
    (selSevs : List ℚ) (minYear maxYear : ℚ) (m : Metric) :
    List (List (List (String × Val))) :=
  let dfFiltered := frameFilter df selState selSevs minYear maxYear
  let dffCleanFrame := frameOutlier m dfFiltered
  [df, dfFiltered, dffCleanFrame].set 2 (addBinned m dffCleanFrame)

/-- The set of column names occurring in a frame. -/
def frameCols (df : List (List (String × Val))) : List String :=
  (df.map fun row => row.map Prod.fst).flatten

/-- C9: after the weather-binning mutation, the base cleaned table (cell 0)
and the filtered view consumed by the other charts (cell 1) are unchanged
for every filter and metric selection, and the helper binning column does
not appear in either (when, as for the cleaned table, it was not a column to
begin with). -/
theorem base_table_immutable (df : List (List (String × Val)))
    (selState : String) (selSevs : List ℚ) (minYear maxYear : ℚ)
    (m : Metric) :
    (pipelineStore df selState selSevs minYear maxYear m)[0]? = some df
    ∧ (pipelineStore df selState selSevs minYear maxYear m)[1]?
        = some (frameFilter df selState selSevs minYear maxYear)
    ∧ (binnedName m ∉ frameCols df →
        binnedName m ∉ frameCols
          (frameFilter df selState selSevs minYear maxYear)) := by
  refine ⟨rfl, rfl, ?_⟩
  intro hnotin hmem
  apply hnotin
  simp only [frameCols, List.mem_flatten, List.mem_map] at hmem ⊢
  obtain ⟨keys, ⟨row, hrow, rfl⟩, hk⟩ := hmem
  exact ⟨row.map Prod.fst, ⟨row, List.mem_of_mem_filter hrow, rfl⟩, hk⟩

/-- Witness for `base_table_immutable` on a one-row cleaned frame. -/
theorem base_table_immutable_witness :
    (binnedName Metric.windSpeed ∉ frameCols [exRawRow])
    ∧ ((pipelineStore [exRawRow] "CA" [2] 2020 2021 Metric.windSpeed)[0]?
        = some [exRawRow]
      ∧ (pipelineStore [exRawRow] "CA" [2] 2020 2021 Metric.windSpeed)[1]?
          = some (frameFilter [exRawRow] "CA" [2] 2020 2021)
      ∧ (binnedName Metric.windSpeed ∉ frameCols [exRawRow] →
          binnedName Metric.windSpeed ∉ frameCols
            (frameFilter [exRawRow] "CA" [2] 2020 2021))) :=
  ⟨by decide,
   base_table_immutable [exRawRow] "CA" [2] 2020 2021 Metric.windSpeed⟩

end Accidents
